import Mathlib

/-!
Verification of the `mainwindow.h` header of the Xoptfoil GUI (src/src/cpp/mainwindow.h).

The header declares a single class `MainWindow : public QMainWindow` with one
private data member `SettingsWindow *settingswindow` and one public constructor
`MainWindow ( QWidget *parent = 0 );`, preceded by `#pragma once`, two toolkit
includes and a forward declaration of `SettingsWindow`.

We embed the header twice, at two levels that are proved consistent:
* a line-by-line tokenized transcription (`mainwindowHLines`, 28 entries, one
  per physical line of the file), together with a small parser (`parseHeader`)
  that assembles the C++ declarations from the lines;
* a declaration-level AST (`mainwindow_h`, `mainWindowClass`, ...) that the
  remaining theorems quantify over.

A small semantic layer models the C++ meaning of the declarations: Lean
structures for the class hierarchy, call semantics for the defaulted
constructor parameter, a world state for the frame claims, and a
translation-unit model for `#pragma once` inclusion.
-/

/-! ### Declaration-level AST of the C++ header -/

/-- C++ access specifiers. -/
inductive Access where
  | publicAcc
  | privateAcc
  | protectedAcc
deriving DecidableEq, Repr

/-- C++ types as they occur in the header: named types and pointer types. -/
inductive CppType where
  | named (n : String)
  | ptr (t : CppType)
deriving DecidableEq, Repr

/-- A function/constructor parameter: type, name, and the default-argument
token when one is declared (`parent = 0` carries the token `0`). -/
structure Param where
  type : CppType
  name : String
  defaultVal : Option String
deriving DecidableEq, Repr

/-- Class members as declared in the header.  Constructors, destructors,
methods and the copy operations record whether a body is present in the
header (`hasBody`); `mainwindow.h` only declares, never defines. -/
inductive Member where
  | field (access : Access) (type : CppType) (name : String)
  | ctor (access : Access) (name : String) (params : List Param) (hasBody : Bool)
  | dtor (access : Access) (hasBody : Bool)
  | method (access : Access) (name : String) (hasBody : Bool)
  | copyCtor (access : Access) (hasBody : Bool)
  | assignOp (access : Access) (hasBody : Bool)
deriving DecidableEq, Repr

/-- A base-class specifier: access and base-class name. -/
structure BaseSpec where
  access : Access
  base : String
deriving DecidableEq, Repr

/-- A class definition: name, base specifiers, members in declaration order. -/
structure ClassDecl where
  name : String
  bases : List BaseSpec
  members : List Member
deriving DecidableEq, Repr

/-- Top-level declarations a C++ header can contribute to a translation
unit: forward declarations, class definitions, free functions, globals.
`mainwindow.h` contains only the first two kinds. -/
inductive Decl where
  | fwdDecl (name : String)
  | classDecl (c : ClassDecl)
  | freeFun (name : String)
  | globalVar (name : String)
deriving DecidableEq, Repr

/-- A header file: its name, whether it opens with `#pragma once`, the
files it includes, and the declarations it contributes. -/
structure Header where
  name : String
  pragmaOnce : Bool
  includes : List String
  decls : List Decl
deriving DecidableEq, Repr

/-- The private member `SettingsWindow *settingswindow;` (line 21). -/
def settingswindowField : Member :=
  .field .privateAcc (.ptr (.named "SettingsWindow")) "settingswindow"

/-- The public constructor `MainWindow ( QWidget *parent = 0 );` (line 27):
declaration only, one parameter with default-argument token `0`. -/
def mainWindowCtor : Member :=
  .ctor .publicAcc "MainWindow"
    [{ type := .ptr (.named "QWidget"), name := "parent", defaultVal := some "0" }]
    false

/-- The class `MainWindow : public QMainWindow` (lines 15-28). -/
def mainWindowClass : ClassDecl :=
  { name := "MainWindow"
    bases := [{ access := .publicAcc, base := "QMainWindow" }]
    members := [settingswindowField, mainWindowCtor] }

/-- The whole header `mainwindow.h`. -/
def mainwindow_h : Header :=
  { name := "mainwindow.h"
    pragmaOnce := true
    includes := ["QWidget", "QMainWindow"]
    decls := [.fwdDecl "SettingsWindow", .classDecl mainWindowClass] }

/-! ### Line-level transcription of the header -/

/-- One physical line of the header, tokenized.  `defnLine` stands for a
line contributing a member-function body or out-of-line definition; no such
line occurs in `mainwindow.h`. -/
inductive HeaderLine where
  | pragmaOnceLine
  | blank
  | includeLine (file : String)
  | commentLine (text : String)
  | bannerLine
  | fwdDeclLine (name : String)
  | classHead (name : String) (bases : List BaseSpec)
  | openBrace
  | accessLabel (a : Access)
  | fieldLine (type : CppType) (name : String)
  | ctorDeclLine (name : String) (params : List Param)
  | closeBraceSemi
  | defnLine (text : String)
deriving DecidableEq, Repr

/-- The 28 physical lines of src/src/cpp/mainwindow.h, in order.  Lines 10
and 14 are the asterisk banner rows of the boxed comment; line 24 holds a
single space and is whitespace-only. -/
def mainwindowHLines : List HeaderLine :=
  [ .pragmaOnceLine
  , .blank
  , .includeLine "QWidget"
  , .includeLine "QMainWindow"
  , .blank
  , .commentLine "Forward declarations"
  , .blank
  , .fwdDeclLine "SettingsWindow"
  , .blank
  , .bannerLine
  , .commentLine ""
  , .commentLine "Header for main window"
  , .commentLine ""
  , .bannerLine
  , .classHead "MainWindow" [{ access := .publicAcc, base := "QMainWindow" }]
  , .openBrace
  , .accessLabel .privateAcc
  , .blank
  , .commentLine "Widgets that may be placed in main window"
  , .blank
  , .fieldLine (.ptr (.named "SettingsWindow")) "settingswindow"
  , .blank
  , .accessLabel .publicAcc
  , .blank
  , .commentLine "Constructor"
  , .blank
  , .ctorDeclLine "MainWindow"
      [{ type := .ptr (.named "QWidget"), name := "parent", defaultVal := some "0" }]
  , .closeBraceSemi ]

/-- Parser state while reading header lines: the `#pragma once` flag,
includes and completed declarations so far, and the class currently open.
A freshly opened `class` starts with private access, the C++ default. -/
structure PartialClass where
  cname : String
  bases : List BaseSpec
  curAccess : Access
  members : List Member
deriving DecidableEq, Repr

/-- State of the header parser. -/
structure ParseSt where
  pragmaOnce : Bool
  includes : List String
  decls : List Decl
  cur : Option PartialClass
deriving DecidableEq, Repr

/-- Initial parser state. -/
def initSt : ParseSt :=
  { pragmaOnce := false, includes := [], decls := [], cur := none }

/-- Process one header line. -/
def stepLine (s : ParseSt) (l : HeaderLine) : ParseSt :=
  match l, s.cur with
  | .pragmaOnceLine, _ => { s with pragmaOnce := true }
  | .blank, _ => s
  | .commentLine _, _ => s
  | .bannerLine, _ => s
  | .defnLine _, _ => s
  | .includeLine f, _ => { s with includes := s.includes ++ [f] }
  | .fwdDeclLine n, _ => { s with decls := s.decls ++ [.fwdDecl n] }
  | .classHead n bs, _ =>
      { s with cur := some { cname := n, bases := bs, curAccess := .privateAcc, members := [] } }
  | .openBrace, _ => s
  | .accessLabel a, some pc => { s with cur := some { pc with curAccess := a } }
  | .accessLabel _, none => s
  | .fieldLine t n, some pc =>
      { s with cur := some { pc with members := pc.members ++ [.field pc.curAccess t n] } }
  | .fieldLine _ _, none => s
  | .ctorDeclLine n ps, some pc =>
      { s with cur := some { pc with members := pc.members ++ [.ctor pc.curAccess n ps false] } }
  | .ctorDeclLine _ _, none => s
  | .closeBraceSemi, some pc =>
      { s with cur := none
               decls := s.decls ++ [.classDecl { name := pc.cname, bases := pc.bases, members := pc.members }] }
  | .closeBraceSemi, none => s

/-- Parse a list of header lines from the initial state. -/
def parseHeader (ls : List HeaderLine) : ParseSt :=
  ls.foldl stepLine initSt

/-! ### Queries on the AST -/

/-- Access specifier of a member. -/
def Member.access : Member → Access
  | .field a _ _ => a
  | .ctor a _ _ _ => a
  | .dtor a _ => a
  | .method a _ _ => a
  | .copyCtor a _ => a
  | .assignOp a _ => a

/-- Whether a member is public. -/
def Member.isPublic (m : Member) : Bool := m.access == .publicAcc

/-- Whether a member is a data member. -/
def Member.isField : Member → Bool
  | .field _ _ _ => true
  | _ => false

/-- Whether a member is an operation (anything callable: constructor,
destructor, method, copy operations) rather than a data member. -/
def Member.isOperation (m : Member) : Bool := !m.isField

/-- Whether a member is a declared destructor. -/
def Member.isDtor : Member → Bool
  | .dtor _ _ => true
  | _ => false

/-- Whether a member is a declared copy constructor. -/
def Member.isCopyCtor : Member → Bool
  | .copyCtor _ _ => true
  | _ => false

/-- Whether a member is a declared copy-assignment operator. -/
def Member.isAssignOp : Member → Bool
  | .assignOp _ _ => true
  | _ => false

/-- The data members of a class, in declaration order. -/
def ClassDecl.fields (c : ClassDecl) : List Member := c.members.filter Member.isField

/-- The operations of a class, in declaration order. -/
def ClassDecl.operations (c : ClassDecl) : List Member := c.members.filter Member.isOperation

/-- The public members of a class, in declaration order. -/
def ClassDecl.publicMembers (c : ClassDecl) : List Member := c.members.filter Member.isPublic

/-- Whether a type mentions the named type `s` (directly or under pointers). -/
def CppType.mentionsName : CppType → String → Bool
  | .named n, s => n == s
  | .ptr t, s => t.mentionsName s

/-- The types used in a member declaration (field type, parameter types). -/
def Member.typesUsed : Member → List CppType
  | .field _ t _ => [t]
  | .ctor _ _ ps _ => ps.map Param.type
  | .dtor _ _ => []
  | .method _ _ _ => []
  | .copyCtor _ _ => []
  | .assignOp _ _ => []

/-- Whether a member declaration mentions the named type `s`. -/
def Member.mentionsType (m : Member) (s : String) : Bool :=
  m.typesUsed.any (fun t => t.mentionsName s)

/-- The members of `c` whose declaration mentions the named type `s`. -/
def ClassDecl.membersMentioning (c : ClassDecl) (s : String) : List Member :=
  c.members.filter (fun m => m.mentionsType s)

/-- Whether a top-level declaration defines a class named `s`. -/
def Decl.definesClassNamed : Decl → String → Bool
  | .classDecl c, s => c.name == s
  | _, _ => false

/-- Whether a top-level declaration is a free function. -/
def Decl.isFreeFun : Decl → Bool
  | .freeFun _ => true
  | _ => false

/-- Whether a top-level declaration is a global variable. -/
def Decl.isGlobalVar : Decl → Bool
  | .globalVar _ => true
  | _ => false

/-- Whether a header line contributes a member-function body or any other
out-of-line definition. -/
def HeaderLine.isDefn : HeaderLine → Bool
  | .defnLine _ => true
  | _ => false

/-! ### Semantic layer -/

/-- Machine addresses; `0` is the null pointer, as in the `parent = 0`
default of the constructor declaration. -/
abbrev Addr := Nat

/-- The null pointer. -/
def nullAddr : Addr := 0

/-- The toolkit widget base: every widget records its parent pointer
(`nullAddr` for a parentless, top-level widget). -/
structure QWidget where
  parent : Addr
deriving DecidableEq, Repr

/-- The toolkit main-window base class, a widget. -/
structure QMainWindow extends QWidget
deriving DecidableEq, Repr

/-- A `MainWindow` value: a `QMainWindow` (hence a `QWidget`) together with
the single declared data member, the raw pointer `settingswindow`. -/
structure MainWindow extends QMainWindow where
  settingswindow : Addr
deriving DecidableEq, Repr

/-- C++ call semantics for a one-parameter callable whose parameter has the
declared default `d`: a call without an argument uses `d`. -/
def callWithDefault {α β : Type} (d : α) (body : α → β) (arg : Option α) : β :=
  body (arg.getD d)

/-- Interpretation of a pointer default-argument token: `0` (and the
equivalent `nullptr`) denote the null pointer; anything else is not a null
pointer constant. -/
def interpPtrDefault : String → Option Addr
  | "0" => some nullAddr
  | "nullptr" => some nullAddr
  | _ => none

/-- Modelled from the toolkit (outside this repository): the `QMainWindow`
constructor records the parent pointer it is given. -/
def qMainWindowInit (parent : Addr) : QMainWindow :=
  { parent := parent }

/-- Modelled from the spec: the `MainWindow` constructor body lives in
`mainwindow.cpp`, which is not part of the provided source; the spec says
only that the constructor takes an optional parent-widget reference whose
parenting semantics are inherited from the toolkit.  We model it as
forwarding the (possibly defaulted) parent to the `QMainWindow` base and
initializing the `settingswindow` member to some pointer value `sw`. -/
def mainWindowInit (sw : Addr) (parent : Addr) : MainWindow :=
  { toQMainWindow := qMainWindowInit parent, settingswindow := sw }

/-- State of the world outside a `MainWindow` object: files, environment,
globals, persisted state, abstracted into one component. -/
structure World where
  outside : Nat
deriving DecidableEq, Repr

/-- Modelled from the spec: the header declares no free functions, globals,
file formats, CLI, environment access or persisted state, so constructing a
`MainWindow` returns the new object and leaves the outside world unchanged
(the constructor body itself is in `mainwindow.cpp`, not provided). -/
def constructInWorld (body : Addr → MainWindow) (arg : Option Addr) (w : World) :
    MainWindow × World :=
  (callWithDefault nullAddr body arg, w)

/-- Opaque contents of a `SettingsWindow` object on the heap. -/
structure SettingsWindowState where
  contents : Nat
deriving DecidableEq, Repr

/-- Program state for the destruction model: the heap of `SettingsWindow`
objects and the set of live `MainWindow` objects, both indexed by address. -/
structure ProgState where
  swHeap : Addr → Option SettingsWindowState
  mainWindows : Addr → Option MainWindow

/-- The implicitly-declared destructor of `MainWindow` (none is declared in
the header): it ends the lifetime of the object itself; its only member is
a raw pointer, and destroying a raw pointer does not touch the pointee, so
the `SettingsWindow` heap is left untouched. -/
def implicitDestroy (a : Addr) (s : ProgState) : ProgState :=
  { s with mainWindows := fun x => if x = a then none else s.mainWindows x }

/-! ### Translation-unit model of `#pragma once` inclusion -/

/-- A translation unit while preprocessing: which pragma-once headers have
already been included, and the declarations accumulated so far. -/
structure TU where
  included : List String
  decls : List Decl
deriving DecidableEq, Repr

/-- The empty translation unit. -/
def emptyTU : TU := { included := [], decls := [] }

/-- Include a header into a translation unit: a `#pragma once` header that
was already included contributes nothing; otherwise its declarations are
appended and the header is recorded as included. -/
def includeHeader (h : Header) (tu : TU) : TU :=
  if h.pragmaOnce && tu.included.contains h.name then tu
  else { included := h.name :: tu.included, decls := tu.decls ++ h.decls }

/-- Include a header `n` times into the empty translation unit. -/
def includeN (h : Header) : Nat → TU
  | 0 => emptyTU
  | n + 1 => includeHeader h (includeN h n)

/-- A concrete program state used to instantiate the destruction theorem:
one live `MainWindow` at address 1 whose `settingswindow` points to the
`SettingsWindow` object at address 2. -/
def exampleMW : MainWindow :=
  { toQMainWindow := qMainWindowInit nullAddr, settingswindow := 2 }

/-- The program state holding `exampleMW` at address 1 and a
`SettingsWindow` at address 2. -/
def exampleState : ProgState :=
  { swHeap := fun x => if x = 2 then some { contents := 7 } else none
    mainWindows := fun x => if x = 1 then some exampleMW else none }

/-! ### Theorems for the claims -/

/-- C1: the public interface of `MainWindow` is exactly one operation, the
constructor, whose single parameter is an optional (defaulted) parent-widget
pointer; no other public member exists. -/
theorem mainWindow_public_iface_only_ctor :
    mainWindowClass.publicMembers = [mainWindowCtor] ∧
    mainWindowCtor = Member.ctor .publicAcc "MainWindow"
      [{ type := .ptr (.named "QWidget"), name := "parent", defaultVal := some "0" }]
      false :=
  ⟨rfl, rfl⟩

/-- C2: the state of `MainWindow` has exactly one declared data member, the
private raw pointer `settingswindow` to `SettingsWindow`, and the full member
list adds only the constructor beyond it; a `MainWindow` value carries exactly
the base-class part plus this one field. -/
theorem mainWindow_single_private_field :
    mainWindowClass.fields = [settingswindowField] ∧
    settingswindowField.access = .privateAcc ∧
    settingswindowField
      = .field .privateAcc (.ptr (.named "SettingsWindow")) "settingswindow" ∧
    mainWindowClass.members = [settingswindowField, mainWindowCtor] ∧
    ∀ (q : QMainWindow) (sw : Addr),
      ∃ m : MainWindow, m.toQMainWindow = q ∧ m.settingswindow = sw :=
  ⟨rfl, rfl, rfl, rfl, fun q sw => ⟨{ toQMainWindow := q, settingswindow := sw }, rfl, rfl⟩⟩

/-- C3: `MainWindow` derives publicly from `QMainWindow`, and the subtype
embedding of `MainWindow` values into `QMainWindow` values is total. -/
theorem mainWindow_isa_qmainwindow :
    mainWindowClass.bases = [{ access := .publicAcc, base := "QMainWindow" }] ∧
    ∀ m : MainWindow, ∃ q : QMainWindow, m.toQMainWindow = q :=
  ⟨rfl, fun m => ⟨m.toQMainWindow, rfl⟩⟩

/-- C4: the only declared operation of `MainWindow` is the constructor, and
its embedding is total: for every constructor body and every argument a
`MainWindow` value results, never an error value. -/
theorem mainWindow_ops_total_no_error :
    mainWindowClass.operations = [mainWindowCtor] ∧
    ∀ (body : Addr → MainWindow) (arg : Option Addr),
      ∃ w : MainWindow, callWithDefault nullAddr body arg = w :=
  ⟨rfl, fun body arg => ⟨body (arg.getD nullAddr), rfl⟩⟩

/-- C5: `SettingsWindow` occurs in the header only as a forward declaration
(no class definition gives it attributes or operations), and its only use in
the module is as the pointee type of the private `settingswindow` pointer. -/
theorem settingsWindow_opaque_forward_only :
    mainwindow_h.decls = [.fwdDecl "SettingsWindow", .classDecl mainWindowClass] ∧
    mainwindow_h.decls.all (fun d => !d.definesClassNamed "SettingsWindow") = true ∧
    mainWindowClass.membersMentioning "SettingsWindow" = [settingswindowField] ∧
    settingswindowField.typesUsed = [.ptr (.named "SettingsWindow")] :=
  ⟨rfl, rfl, rfl, rfl⟩

/-- C6: beyond the `MainWindow` class and the `SettingsWindow` forward
declaration the module declares no free functions and no global variables,
and constructing a `MainWindow` leaves the outside world unchanged while
producing exactly the constructed object. -/
theorem mainwindow_h_no_free_ifaces_construct_frame :
    mainwindow_h.decls = [.fwdDecl "SettingsWindow", .classDecl mainWindowClass] ∧
    mainwindow_h.decls.all (fun d => !d.isFreeFun && !d.isGlobalVar) = true ∧
    ∀ (body : Addr → MainWindow) (arg : Option Addr) (w : World),
      (constructInWorld body arg w).2 = w ∧
      (constructInWorld body arg w).1 = callWithDefault nullAddr body arg :=
  ⟨rfl, rfl, fun _ _ _ => ⟨rfl, rfl⟩⟩

/-- C7: the header is exactly 28 lines, none of which carries a member-function
body or out-of-line definition, and parsing those lines yields precisely the
pragma, the two includes, the forward declaration of `SettingsWindow` and the
`MainWindow` class declaration, with no class left open. -/
theorem mainwindow_h_28_lines_decls_only :
    mainwindowHLines.length = 28 ∧
    mainwindowHLines.all (fun l => !l.isDefn) = true ∧
    parseHeader mainwindowHLines =
      { pragmaOnce := mainwindow_h.pragmaOnce
        includes := mainwindow_h.includes
        decls := mainwindow_h.decls
        cur := none } :=
  ⟨rfl, rfl, rfl⟩

/-- C8: the constructor parameter `parent` carries the default token `0`,
which denotes the null pointer, so a call with no argument equals a call
with a null parent, and (with the parent forwarded to the toolkit base) the
resulting window is parentless, i.e. top-level. -/
theorem mainWindow_ctor_default_null_parent :
    mainWindowCtor = Member.ctor .publicAcc "MainWindow"
      [{ type := .ptr (.named "QWidget"), name := "parent", defaultVal := some "0" }]
      false ∧
    interpPtrDefault "0" = some nullAddr ∧
    (∀ body : Addr → MainWindow,
      callWithDefault nullAddr body none = callWithDefault nullAddr body (some nullAddr)) ∧
    ∀ sw : Addr, (callWithDefault nullAddr (mainWindowInit sw) none).parent = nullAddr :=
  ⟨rfl, rfl, fun _ => rfl, fun _ => rfl⟩

/-- C9: `MainWindow` declares no destructor, copy constructor or assignment
operator, so the implicitly-declared destructor applies, and destroying a
`MainWindow` leaves the `SettingsWindow` object its non-null pointer refers
to unchanged. -/
theorem mainWindow_no_special_members_dtor_frame :
    mainWindowClass.members.all
      (fun m => !m.isDtor && !m.isCopyCtor && !m.isAssignOp) = true ∧
    ∀ (a : Addr) (s : ProgState) (m : MainWindow),
      s.mainWindows a = some m → m.settingswindow ≠ nullAddr →
      (implicitDestroy a s).swHeap m.settingswindow = s.swHeap m.settingswindow :=
  ⟨rfl, fun _ _ _ _ _ => rfl⟩

/-- Witness for C9 at a concrete state: the live `MainWindow` at address 1
points to the `SettingsWindow` at address 2, and destruction leaves that
object's heap cell unchanged. -/
theorem mainWindow_no_special_members_dtor_frame_w :
    exampleState.mainWindows 1 = some exampleMW ∧
    exampleMW.settingswindow ≠ nullAddr ∧
    (implicitDestroy 1 exampleState).swHeap exampleMW.settingswindow
      = exampleState.swHeap exampleMW.settingswindow :=
  ⟨rfl, by decide,
    mainWindow_no_special_members_dtor_frame.2 1 exampleState exampleMW rfl (by decide)⟩

/-- Including `mainwindow.h` into the translation unit that already holds
one inclusion of it is a no-op, because the header is guarded by
`#pragma once`. -/
theorem includeHeader_mainwindow_idem :
    includeHeader mainwindow_h (includeN mainwindow_h 1) = includeN mainwindow_h 1 := by
  decide

/-- C10: the header is guarded by `#pragma once`, so for every n ≥ 1 the
declarations of a translation unit after n inclusions equal those after one
inclusion, and `MainWindow` is defined exactly once, never redefined. -/
theorem pragma_once_inclusion_idempotent (n : Nat) (h : 1 ≤ n) :
    mainwindow_h.pragmaOnce = true ∧
    includeN mainwindow_h n = includeN mainwindow_h 1 ∧
    ((includeN mainwindow_h n).decls.filter
        (fun d => d.definesClassNamed "MainWindow")).length = 1 := by
  have key : includeN mainwindow_h n = includeN mainwindow_h 1 := by
    induction n with
    | zero => exact absurd h (by decide)
    | succ m ih =>
      cases Nat.eq_zero_or_pos m with
      | inl h0 => subst h0; rfl
      | inr hm =>
        show includeHeader mainwindow_h (includeN mainwindow_h m)
          = includeN mainwindow_h 1
        rw [ih hm]
        exact includeHeader_mainwindow_idem
  refine ⟨rfl, key, ?_⟩
  rw [key]
  rfl

/-- Witness for C10 at n = 3: three inclusions give the same translation
unit as one, with a single definition of `MainWindow`. -/
theorem pragma_once_inclusion_idempotent_w :
    1 ≤ 3 ∧
    (mainwindow_h.pragmaOnce = true ∧
     includeN mainwindow_h 3 = includeN mainwindow_h 1 ∧
     ((includeN mainwindow_h 3).decls.filter
        (fun d => d.definesClassNamed "MainWindow")).length = 1) :=
  ⟨by decide, pragma_once_inclusion_idempotent 3 (by decide)⟩
